import Mathlib

/-!
Verification of the Statistical Baseline, Anomaly-Escalation, and
Lagged-Correlation Engine of the Personal Health & Wellness Aggregator.

The definitions below are a shallow embedding of
`backend/services/anomaly_detection.py` and
`backend/services/correlation_engine.py` (with the enums of
`backend/models/health_data.py`).  Python floats are embedded as exact
rationals; `statistics.stdev` (a square root) lands in `ℝ`.  Dates
("YYYY-MM-DD" strings parsed with `datetime.strptime` and shifted with
`timedelta(days=...)`) are embedded as integers (day numbers), which is
faithful because the string-to-date map is injective and adding a lag
offset corresponds to integer addition.  Python's stable `list.sort`
(with `reverse=True` realised through a `key` that flips the comparison)
is embedded as `List.insertionSort`, which is a stable sort with the
same behaviour.  `round(x, k)` is embedded with Mathlib's `round`
(nearest integer, ties upward); Python rounds exact ties to even, but no
claim in this development depends on a tie.
-/

namespace HealthAgg

/-- Severity levels of `SeverityLevel` in `models/health_data.py`. -/
inductive Severity
  | info
  | warning
  | critical
deriving DecidableEq, Repr

/-- Metric types of `MetricType` in `models/health_data.py`. -/
inductive MetricType
  | sleep
  | heart_rate
  | steps
  | nutrition
  | weight
  | stress
  | energy
deriving DecidableEq, Repr

/-- The seven named metrics the detector and the correlation engine know
(the keys of `METRIC_DIRECTIONS` / `metric_type_mapping`). -/
inductive MetricName
  | sleep_duration
  | sleep_quality
  | resting_hr
  | hrv
  | steps
  | stress_score
  | energy_level
deriving DecidableEq, Repr

/-- The `metric_type_mapping` dictionary used by `_calculate_baselines`,
`_check_metric` and `_create_insight` (the `.get(..., MetricType.SLEEP)`
default never fires on these seven names). -/
def metricType : MetricName → MetricType
  | .sleep_duration => .sleep
  | .sleep_quality => .sleep
  | .resting_hr => .heart_rate
  | .hrv => .heart_rate
  | .steps => .steps
  | .stress_score => .stress
  | .energy_level => .energy

/-- One daily record of the JSON record store: the nested
`category → field → number` mapping flattened to its seven numeric
fields, each optional (`record.get("sleep", {}).get("duration_hours")`
style access yields `None` when the category or the field is absent). -/
structure Record where
  date : ℤ
  sleepDuration : Option ℚ
  sleepQuality : Option ℚ
  restingHr : Option ℚ
  hrv : Option ℚ
  steps : Option ℚ
  stressScore : Option ℚ
  energyLevel : Option ℚ
deriving DecidableEq, Repr

/-- Raw field access, `record.get(category, {}).get(field)`:
`some v` exactly when the value is present (even when it is `0`). -/
def Record.get (r : Record) : MetricName → Option ℚ
  | .sleep_duration => r.sleepDuration
  | .sleep_quality => r.sleepQuality
  | .resting_hr => r.restingHr
  | .hrv => r.hrv
  | .steps => r.steps
  | .stress_score => r.stressScore
  | .energy_level => r.energyLevel

/-- Python truthiness applied to an optional number: `if d.get(k):`
treats both a missing value and a stored `0` as absent. -/
def dropZero : Option ℚ → Option ℚ
  | some v => if v = 0 then none else some v
  | none => none

/-- The detector's truthiness test `if record.get(cat, {}).get(field):`
on a record's field. -/
def truthyGet (r : Record) (m : MetricName) : Option ℚ :=
  dropZero (r.get m)

/-- Replaces each stored `0` value of a record by an absent value.  Used
to state that the detector treats `0` as absent. -/
def zeroToNone (r : Record) : Record :=
  { date := r.date
    sleepDuration := dropZero r.sleepDuration
    sleepQuality := dropZero r.sleepQuality
    restingHr := dropZero r.restingHr
    hrv := dropZero r.hrv
    steps := dropZero r.steps
    stressScore := dropZero r.stressScore
    energyLevel := dropZero r.energyLevel }

/-- `statistics.mean` (exact rational arithmetic). -/
def meanQ (xs : List ℚ) : ℚ := xs.sum / xs.length

/-- Sum of squared deviations from the mean, `Σ (x - mean)²`. -/
def sumDev2 (xs : List ℚ) : ℚ := (xs.map (fun x => (x - meanQ xs) ^ 2)).sum

/-- Sum of products of deviations, `Σ (x - mean x)·(y - mean y)`,
over `zip(x_values, y_values)`. -/
def sumDevProd (xs ys : List ℚ) : ℚ :=
  ((xs.zip ys).map (fun p => (p.1 - meanQ xs) * (p.2 - meanQ ys))).sum

/-- The sample variance `Σ (x - mean)² / (n - 1)` whose square root is
`statistics.stdev`. -/
def sampleVarQ (xs : List ℚ) : ℚ := sumDev2 xs / ((xs.length : ℚ) - 1)

/-- `statistics.stdev(values) if len(values) > 1 else 0`, the guarded
sample standard deviation used both by `_calculate_baselines` and by
`_calculate_pearson`. -/
noncomputable def stdevR (xs : List ℚ) : ℝ :=
  if 1 < xs.length then Real.sqrt (sampleVarQ xs : ℝ) else 0

/-- Python's `round(q, 2)` on an exact rational. -/
def round2Q (q : ℚ) : ℚ := (round (100 * q) : ℤ) / 100

/-- Python's `round(x, 1)` on an exact rational. -/
def round1Q (q : ℚ) : ℚ := (round (10 * q) : ℤ) / 10

/-- Python's `round(x, 2)` applied to a real (used on standard
deviations, which carry a square root); the result is rational. -/
noncomputable def round2ofReal (x : ℝ) : ℚ := (round (100 * x) : ℤ) / 100

/-- `baseline_period = min(60, int(len(records) * 0.66))`.  The float
product `n * 0.66` is embedded as the exact `66·n/100`: the double
nearest `0.66` exceeds `33/50` by about `3.1e-17`, and for `n ≤ 90`
(beyond which the `min` with `60` decides the result) `66·n/100` is
never within `1/50` below an integer, so truncation agrees exactly. -/
def baselinePeriod (n : ℕ) : ℕ := min 60 (66 * n / 100)

/-- The values collected for one metric by the `for record in
baseline_records` loop of `_calculate_baselines`: truthy values of the
earliest `baseline_period` records. -/
def metricValues (records : List Record) (m : MetricName) : List ℚ :=
  (records.take (baselinePeriod records.length)).filterMap (fun r => truthyGet r m)

/-- The per-metric `Baseline` model: every stored field is a Python
float rounded to two decimals, hence an exact rational here. -/
structure BaselineQ where
  metricType : MetricType
  mean : ℚ
  stdDev : ℚ
  minNormal : ℚ
  maxNormal : ℚ
  sampleDays : ℕ
deriving DecidableEq

/-- `_calculate_baselines`, per metric: `None` when the record set has
fewer than 14 records or the metric has fewer than 7 truthy values in
the baseline window; otherwise the rounded statistics of those values.
The resulting map is the detector's `self._baselines` state. -/
noncomputable def calculateBaselines (records : List Record) (m : MetricName) :
    Option BaselineQ :=
  if records.length < 14 then none
  else
    let values := metricValues records m
    if 7 ≤ values.length then
      some { metricType := metricType m
             mean := round2Q (meanQ values)
             stdDev := round2ofReal (stdevR values)
             minNormal := round2ofReal ((meanQ values : ℝ) - 2 * stdevR values)
             maxNormal := round2ofReal ((meanQ values : ℝ) + 2 * stdevR values)
             sampleDays := values.length }
    else none

/-- An `AnomalyAlert` without its presentational strings: the metric is
kept by name (the source's `title`/`display_name` identifies it
uniquely), the description's persistence note is determined by
`consecutiveDays`, and the choice between the two `recommended_action`
strings is determined by `isLow` (`value < baseline.mean`).  The random
`uuid` id is dropped. -/
structure AlertQ where
  date : ℤ
  severity : Severity
  metricName : MetricName
  metricType : MetricType
  currentValue : ℚ
  baselineValue : ℚ
  deviationPercent : ℚ
  consecutiveDays : ℕ
  isLow : Bool
deriving DecidableEq, Repr

/-- The raw z-score classification of `_check_metric`
(`THRESHOLDS[CRITICAL] = 2.5`, `THRESHOLDS[WARNING] = 2.0`). -/
def rawSeverity (z : ℚ) : Severity :=
  if 5/2 ≤ z then .critical
  else if 2 ≤ z then .warning
  else .info

/-- The consecutive-day escalation `if/elif` of `_check_metric`:
`info` with run length ≥ 3 becomes `warning`; otherwise `warning` with
run length ≥ 5 becomes `critical`. -/
def escalate (raw : Severity) (cd : ℕ) : Severity :=
  if 3 ≤ cd ∧ raw = .info then .warning
  else if 5 ≤ cd ∧ raw = .warning then .critical
  else raw

/-- `_check_metric`: given the metric's baseline, the observed value,
the record's date and the metric's current run-length counter, returns
the optional alert together with the new counter value (the Python code
mutates `consecutive_tracker[metric_name]` in place). -/
def checkMetric (m : MetricName) (b : BaselineQ) (value : ℚ) (d : ℤ) (c : ℕ) :
    Option AlertQ × ℕ :=
  if b.stdDev = 0 then (none, c)
  else if |value - b.mean| / b.stdDev < 3/2 then (none, 0)
  else
    (some { date := d
            severity := escalate (rawSeverity (|value - b.mean| / b.stdDev)) (c + 1)
            metricName := m
            metricType := metricType m
            currentValue := value
            baselineValue := b.mean
            deviationPercent := round1Q ((value - b.mean) / b.mean * 100)
            consecutiveDays := c + 1
            isLow := decide (value < b.mean) },
     c + 1)

/-- The five metrics `_check_record_for_anomalies` examines, in source
order.  `sleep_quality` and `energy_level` are not scanned. -/
def scanOrder : List MetricName :=
  [.sleep_duration, .resting_hr, .hrv, .steps, .stress_score]

/-- One `if value and name in self._baselines:` block of
`_check_record_for_anomalies`: when the record has a truthy value for
the metric and the metric has a baseline, run `_check_metric` and store
its new counter value; otherwise leave the state untouched. -/
def tryMetric (bl : MetricName → Option BaselineQ) (r : Record) (m : MetricName)
    (st : List AlertQ × (MetricName → ℕ)) : List AlertQ × (MetricName → ℕ) :=
  match truthyGet r m, bl m with
  | some v, some b =>
      let res := checkMetric m b v r.date (st.2 m)
      (st.1 ++ res.1.toList, Function.update st.2 m res.2)
  | _, _ => st

/-- `_check_record_for_anomalies`: the five metric blocks in source
order, returning the record's alerts and the updated tracker. -/
def checkRecordForAnomalies (bl : MetricName → Option BaselineQ) (r : Record)
    (tr : MetricName → ℕ) : List AlertQ × (MetricName → ℕ) :=
  scanOrder.foldl (fun st m => tryMetric bl r m st) ([], tr)

/-- The descending-timestamp order of
`self._anomalies.sort(key=lambda x: x.timestamp, reverse=True)`. -/
instance : DecidableRel (fun a b : AlertQ => b.date ≤ a.date) :=
  fun _ _ => Int.decLe _ _

/-- `_detect_anomalies`, with the baselines map passed explicitly (it is
the object state `self._baselines` in the source): nothing below 14
records; otherwise scan the most recent 30 records with a fresh
`defaultdict(int)` run-length tracker and sort the collected alerts
newest-first (Python's sort is stable; so is `insertionSort`). -/
def detectAnomalies (bl : MetricName → Option BaselineQ) (records : List Record) :
    List AlertQ :=
  if records.length < 14 then []
  else
    let recent := records.drop (records.length - 30)
    let scanned := recent.foldl
      (fun (st : List AlertQ × (MetricName → ℕ)) r =>
        let res := checkRecordForAnomalies bl r st.2
        (st.1 ++ res.1, res.2))
      ([], fun _ => 0)
    List.insertionSort (fun a b => b.date ≤ a.date) scanned.1

/-- `_extract_metric_series`: the `(date, value)` pairs of the records
where the metric's value is present.  Unlike the anomaly detector, the
correlation engine tests `value is not None`, so a stored `0` is kept. -/
def extractMetricSeries (records : List Record) (m : MetricName) : List (ℤ × ℚ) :=
  records.filterMap (fun r => (r.get m).map (fun v => (r.date, v)))

/-- Lookup in `dict_b = {date: value for date, value in series_b}`: a
Python dict comprehension keeps the last value for a duplicated key. -/
def dictLookup (l : List (ℤ × ℚ)) (d : ℤ) : Option ℚ :=
  l.foldl (fun acc p => if p.1 = d then some p.2 else acc) none

/-- `_align_series`: for each `(date, value)` of the first series, look
up `date + offset` in the second; the source returns the two aligned
value lists separately, embedded here as one list of pairs (`aligned_a`
is `map Prod.fst`, `aligned_b` is `map Prod.snd`). -/
def alignSeries (sa sb : List (ℤ × ℚ)) (offset : ℤ) : List (ℚ × ℚ) :=
  sa.filterMap (fun p => (dictLookup sb (p.1 + offset)).map (fun vb => (p.2, vb)))

/-- `statistics.mean`-based covariance of `_calculate_pearson`:
`sum((x - mean_x)·(y - mean_y) for x, y in zip(...)) / n`. -/
def covQ (xs ys : List ℚ) : ℚ := sumDevProd xs ys / (xs.length : ℚ)

open Classical in
/-- `_calculate_pearson`: returns `(correlation, confidence)`.  Fewer
than 10 points, or a zero standard deviation on either side, yields
`(0, 0)`; otherwise the covariance over `n` divided by the product of
the two sample standard deviations (which divide by `n - 1`), and the
sample-size confidence `min(1, n/60)`. -/
noncomputable def calculatePearson (xs ys : List ℚ) : ℝ × ℝ :=
  if xs.length < 10 then (0, 0)
  else if stdevR xs = 0 ∨ stdevR ys = 0 then (0, 0)
  else ((covQ xs ys : ℝ) / (stdevR xs * stdevR ys), min 1 ((xs.length : ℝ) / 60))

/-- Python's `round(x, 3)` on a real. -/
noncomputable def round3ofReal (x : ℝ) : ℝ := ((round (1000 * x) : ℤ) : ℝ) / 1000

/-- Python's `round(x, 2)` on a real. -/
noncomputable def round2ofRealR (x : ℝ) : ℝ := ((round (100 * x) : ℤ) : ℝ) / 100

/-- Strength word of `_create_insight`'s description:
`"strong" if abs(correlation) >= 0.6 else "moderate"`. -/
inductive Strength
  | moderate
  | strong
deriving DecidableEq

/-- Direction word of `_create_insight`'s description:
`"positive" if correlation > 0 else "negative"`. -/
inductive Direction
  | positive
  | negative
deriving DecidableEq

/-- A `CorrelationInsight` without its presentational strings: the
description's strength and direction words and its "(next-day effect)"
annotation are kept as fields; the random `uuid` id and the templated
sentences are dropped. -/
structure Insight where
  metricA : MetricType
  metricB : MetricType
  coefficient : ℝ
  sampleSize : ℕ
  confidence : ℝ
  strength : Strength
  direction : Direction
  nextDayEffect : Bool

open Classical in
/-- `_create_insight`: classification uses the unrounded coefficient;
the stored coefficient is rounded to 3 decimals and the stored
confidence to 2. -/
noncomputable def createInsight (a b : MetricName) (corr conf : ℝ) (n : ℕ)
    (offset : ℤ) : Insight :=
  { metricA := metricType a
    metricB := metricType b
    coefficient := round3ofReal corr
    sampleSize := n
    confidence := round2ofRealR conf
    strength := if 6/10 ≤ |corr| then .strong else .moderate
    direction := if 0 < corr then .positive else .negative
    nextDayEffect := decide (0 < offset) }

/-- The fixed `CORRELATION_PAIRS` catalogue `(metric_a, metric_b, lag)`. -/
def correlationPairs : List (MetricName × MetricName × ℤ) :=
  [(.sleep_duration, .energy_level, 0),
   (.sleep_quality, .stress_score, 0),
   (.steps, .sleep_quality, 0),
   (.stress_score, .resting_hr, 0),
   (.hrv, .energy_level, 0),
   (.sleep_duration, .steps, 1),
   (.sleep_duration, .energy_level, 1),
   (.sleep_quality, .stress_score, 1),
   (.stress_score, .sleep_quality, 1)]

/-- The aligned sample of one catalogue entry. -/
def entryAligned (records : List Record) (e : MetricName × MetricName × ℤ) :
    List (ℚ × ℚ) :=
  alignSeries (extractMetricSeries records e.1) (extractMetricSeries records e.2.1) e.2.2

/-- The `(correlation, confidence)` pair of one catalogue entry. -/
noncomputable def entryPearson (records : List Record)
    (e : MetricName × MetricName × ℤ) : ℝ × ℝ :=
  calculatePearson ((entryAligned records e).map Prod.fst)
    ((entryAligned records e).map Prod.snd)

/-- The insight one catalogue entry would contribute. -/
noncomputable def entryInsight (records : List Record)
    (e : MetricName × MetricName × ℤ) : Insight :=
  createInsight e.1 e.2.1 (entryPearson records e).1 (entryPearson records e).2
    (entryAligned records e).length e.2.2

open Classical in
/-- One iteration of the `for metric_a, metric_b, offset in
self.CORRELATION_PAIRS` loop of `_calculate_correlations`: skip when
either extracted series is empty (`if not series_a or not series_b`),
when fewer than 14 points align, or when the coefficient stays below
`MIN_CORRELATION = 0.3`; otherwise append the insight.  The loop's
locals `aligned_a/aligned_b`, `(correlation, confidence)` and the built
insight are the definitions `entryAligned`, `entryPearson` and
`entryInsight` above. -/
noncomputable def corrStep (records : List Record) (acc : List Insight)
    (e : MetricName × MetricName × ℤ) : List Insight :=
  if extractMetricSeries records e.1 = [] ∨
      extractMetricSeries records e.2.1 = [] then acc
  else if (entryAligned records e).length < 14 then acc
  else if 3/10 ≤ |(entryPearson records e).1| then
    acc ++ [entryInsight records e]
  else acc

open Classical in
/-- `_calculate_correlations`: the catalogue scan followed by
`sort(key=lambda x: abs(x.correlation_coefficient), reverse=True)`
(stable descending sort on the stored, rounded coefficient). -/
noncomputable def calculateCorrelations (records : List Record) : List Insight :=
  List.insertionSort (fun i j => |j.coefficient| ≤ |i.coefficient|)
    (correlationPairs.foldl (corrStep records) [])

/-- The textbook Pearson correlation coefficient
`Σ dx·dy / sqrt(Σ dx² · Σ dy²)`, the quantity the spec says
`_calculate_pearson` computes ("r = cov(x,y) / (std(x)·std(y))" with
covariance and standard deviations over a common denominator). -/
noncomputable def pearsonCoefficientSpec (xs ys : List ℚ) : ℝ :=
  (sumDevProd xs ys : ℝ) / (Real.sqrt (sumDev2 xs : ℝ) * Real.sqrt (sumDev2 ys : ℝ))

/-- Modelled from the spec: the count of "non-null values ... within the
baseline window" for a metric — present values, including stored zeros
(`Record.get`, not the detector's truthiness test). -/
def nonNullCountSpec (records : List Record) (m : MetricName) : ℕ :=
  ((records.take (baselinePeriod records.length)).filterMap (fun r => r.get m)).length

/-! Concrete data used to exercise the theorems: a stress-score baseline
with mean 10 and standard deviation 5, records carrying only a
stress-score value, and the synthetic series of the spec's consecutive-day
scenarios. -/

/-- A demo baseline: stress score with mean 10 and standard deviation 5. -/
def bDemo : BaselineQ := ⟨.stress, 10, 5, 0, 20, 14⟩

/-- A demo baseline with standard deviation 1. -/
def bUnit : BaselineQ := ⟨.stress, 10, 1, 8, 12, 14⟩

/-- A baselines map holding only the demo stress baseline. -/
def blDemo : MetricName → Option BaselineQ :=
  fun m => if m = .stress_score then some bDemo else none

/-- A record carrying only a stress-score value. -/
def mkStress (d : ℤ) (v : ℚ) : Record :=
  ⟨d, none, none, none, none, none, some v, none⟩

/-- Fourteen normal days (value 10, z = 0) followed by three days at
value 18, i.e. z = 1.6 against `bDemo` — the spec's info-range
consecutive-day scenario. -/
def recsInfo3 : List Record :=
  [mkStress 1 10, mkStress 2 10, mkStress 3 10, mkStress 4 10, mkStress 5 10,
   mkStress 6 10, mkStress 7 10, mkStress 8 10, mkStress 9 10, mkStress 10 10,
   mkStress 11 10, mkStress 12 10, mkStress 13 10, mkStress 14 10,
   mkStress 15 18, mkStress 16 18, mkStress 17 18]

/-- Fourteen normal days followed by five days at value 21, i.e.
z = 2.2 (warning range) against `bDemo` — the spec's warning-range
consecutive-day scenario. -/
def recsWarn5 : List Record :=
  [mkStress 1 10, mkStress 2 10, mkStress 3 10, mkStress 4 10, mkStress 5 10,
   mkStress 6 10, mkStress 7 10, mkStress 8 10, mkStress 9 10, mkStress 10 10,
   mkStress 11 10, mkStress 12 10, mkStress 13 10, mkStress 14 10,
   mkStress 15 21, mkStress 16 21, mkStress 17 21, mkStress 18 21,
   mkStress 19 21]

/-- An anomalous day, a normal day, then another anomalous day: the
run-length counter must restart at 1 on day 17. -/
def recsReset : List Record :=
  [mkStress 1 10, mkStress 2 10, mkStress 3 10, mkStress 4 10, mkStress 5 10,
   mkStress 6 10, mkStress 7 10, mkStress 8 10, mkStress 9 10, mkStress 10 10,
   mkStress 11 10, mkStress 12 10, mkStress 13 10, mkStress 14 10,
   mkStress 15 21, mkStress 16 10, mkStress 17 21]

/-- Fourteen records whose stress score is present for the first seven
days but is `0` on day 1 (so only six values are truthy), and absent
afterwards.  The baseline window is the earliest
`min(60, int(14·0.66)) = 9` records. -/
def recsC4 : List Record :=
  [mkStress 1 0, mkStress 2 11, mkStress 3 12, mkStress 4 13, mkStress 5 14,
   mkStress 6 15, mkStress 7 16, mkStress 8 0, mkStress 9 0,
   mkStress 10 0, mkStress 11 0, mkStress 12 0, mkStress 13 0, mkStress 14 0]

/-- The 20-point series 1..20 of the spec's anti-correlation scenario. -/
def xs20 : List ℚ :=
  [1, 2, 3, 4, 5, 6, 7, 8, 9, 10, 11, 12, 13, 14, 15, 16, 17, 18, 19, 20]

/-- The perfectly anti-correlated partner series `y = 100 - x`. -/
def ys20 : List ℚ := xs20.map (fun x => 100 - x)

/-! Evaluation lemmas for the concrete scenarios. -/

lemma checkRecord_mkStress (d : ℤ) (v : ℚ) (hv : v ≠ 0) (tr : MetricName → ℕ) :
    checkRecordForAnomalies blDemo (mkStress d v) tr =
      ((checkMetric .stress_score bDemo v d (tr .stress_score)).1.toList,
       Function.update tr .stress_score
         (checkMetric .stress_score bDemo v d (tr .stress_score)).2) := by
  simp [checkRecordForAnomalies, scanOrder, tryMetric, truthyGet, Record.get,
    mkStress, dropZero, blDemo, hv]

lemma step_normal (d : ℤ) (c : ℕ) :
    checkMetric .stress_score bDemo 10 d c = (none, 0) := by
  simp [checkMetric, bDemo]

lemma step_info_facts :
    |(18 : ℚ) - 10| / 5 = 8/5 ∧ ¬((8/5 : ℚ) < 3/2) ∧ ¬((5/2 : ℚ) ≤ 8/5) ∧
      ¬((2 : ℚ) ≤ 8/5) ∧ round1Q (((18:ℚ) - 10) / 10 * 100) = 80 ∧
      decide ((18:ℚ) < 10) = false := by
  refine ⟨?_, by norm_num, by norm_num, by norm_num, ?_, decide_eq_false (by norm_num)⟩
  · rw [abs_of_nonneg (by norm_num : (0:ℚ) ≤ 18 - 10)]; norm_num
  · norm_num [round1Q, round_eq]

lemma step_info0 (d : ℤ) :
    checkMetric .stress_score bDemo 18 d 0 =
      (some ⟨d, .info, .stress_score, .stress, 18, 10, 80, 1, false⟩, 1) := by
  obtain ⟨h, h1, h2, h3, hdev, hlow⟩ := step_info_facts
  simp [checkMetric, bDemo, h, rawSeverity, escalate, metricType, h1, h2, h3, hdev, hlow]

lemma step_info1 (d : ℤ) :
    checkMetric .stress_score bDemo 18 d 1 =
      (some ⟨d, .info, .stress_score, .stress, 18, 10, 80, 2, false⟩, 2) := by
  obtain ⟨h, h1, h2, h3, hdev, hlow⟩ := step_info_facts
  simp [checkMetric, bDemo, h, rawSeverity, escalate, metricType, h1, h2, h3, hdev, hlow]

lemma step_info2 (d : ℤ) :
    checkMetric .stress_score bDemo 18 d 2 =
      (some ⟨d, .warning, .stress_score, .stress, 18, 10, 80, 3, false⟩, 3) := by
  obtain ⟨h, h1, h2, h3, hdev, hlow⟩ := step_info_facts
  simp [checkMetric, bDemo, h, rawSeverity, escalate, metricType, h1, h2, h3, hdev, hlow]

lemma step_warn_facts :
    |(21 : ℚ) - 10| / 5 = 11/5 ∧ ¬((11/5 : ℚ) < 3/2) ∧ ¬((5/2 : ℚ) ≤ 11/5) ∧
      ((2 : ℚ) ≤ 11/5) ∧ round1Q (((21:ℚ) - 10) / 10 * 100) = 110 ∧
      decide ((21:ℚ) < 10) = false := by
  refine ⟨?_, by norm_num, by norm_num, by norm_num, ?_, decide_eq_false (by norm_num)⟩
  · rw [abs_of_nonneg (by norm_num : (0:ℚ) ≤ 21 - 10)]; norm_num
  · norm_num [round1Q, round_eq]

lemma step_warn (d : ℤ) (c : ℕ) (hc : c + 1 < 5) :
    checkMetric .stress_score bDemo 21 d c =
      (some ⟨d, .warning, .stress_score, .stress, 21, 10, 110, c + 1, false⟩, c + 1) := by
  obtain ⟨h, h1, h2, h3, hdev, hlow⟩ := step_warn_facts
  have hc5 : ¬(5 ≤ c + 1) := by omega
  simp [checkMetric, bDemo, h, rawSeverity, escalate, metricType, h1, h2, h3, hdev,
    hlow, hc5]

lemma step_warn4 (d : ℤ) :
    checkMetric .stress_score bDemo 21 d 4 =
      (some ⟨d, .critical, .stress_score, .stress, 21, 10, 110, 5, false⟩, 5) := by
  obtain ⟨h, h1, h2, h3, hdev, hlow⟩ := step_warn_facts
  simp [checkMetric, bDemo, h, rawSeverity, escalate, metricType, h1, h2, h3, hdev, hlow]

lemma hupd0 : Function.update (fun _ : MetricName => 0) MetricName.stress_score 0 =
    (fun _ => 0) := by
  funext x
  simp [Function.update]

lemma scenario_info3 :
    (detectAnomalies blDemo recsInfo3).head?.map
      (fun a => (a.date, a.severity, a.consecutiveDays)) =
      some (17, .warning, 3) := by
  have h10 : ∀ (d : ℤ) (tr : MetricName → ℕ),
      checkRecordForAnomalies blDemo (mkStress d 10) tr =
      ((checkMetric .stress_score bDemo 10 d (tr .stress_score)).1.toList,
       Function.update tr .stress_score
         (checkMetric .stress_score bDemo 10 d (tr .stress_score)).2) :=
    fun d tr => checkRecord_mkStress d 10 (by norm_num) tr
  have h18 : ∀ (d : ℤ) (tr : MetricName → ℕ),
      checkRecordForAnomalies blDemo (mkStress d 18) tr =
      ((checkMetric .stress_score bDemo 18 d (tr .stress_score)).1.toList,
       Function.update tr .stress_score
         (checkMetric .stress_score bDemo 18 d (tr .stress_score)).2) :=
    fun d tr => checkRecord_mkStress d 18 (by norm_num) tr
  simp [detectAnomalies, recsInfo3, h10, h18, step_normal, step_info0, step_info1,
    step_info2, hupd0, Function.update_same, List.insertionSort, List.orderedInsert]

lemma scenario_warn5 :
    (detectAnomalies blDemo recsWarn5).head?.map
      (fun a => (a.date, a.severity, a.consecutiveDays)) =
      some (19, .critical, 5) := by
  have h10 : ∀ (d : ℤ) (tr : MetricName → ℕ),
      checkRecordForAnomalies blDemo (mkStress d 10) tr =
      ((checkMetric .stress_score bDemo 10 d (tr .stress_score)).1.toList,
       Function.update tr .stress_score
         (checkMetric .stress_score bDemo 10 d (tr .stress_score)).2) :=
    fun d tr => checkRecord_mkStress d 10 (by norm_num) tr
  have h21 : ∀ (d : ℤ) (tr : MetricName → ℕ),
      checkRecordForAnomalies blDemo (mkStress d 21) tr =
      ((checkMetric .stress_score bDemo 21 d (tr .stress_score)).1.toList,
       Function.update tr .stress_score
         (checkMetric .stress_score bDemo 21 d (tr .stress_score)).2) :=
    fun d tr => checkRecord_mkStress d 21 (by norm_num) tr
  have hw0 := fun d => step_warn d 0 (by omega)
  have hw1 := fun d => step_warn d 1 (by omega)
  have hw2 := fun d => step_warn d 2 (by omega)
  have hw3 := fun d => step_warn d 3 (by omega)
  simp [detectAnomalies, recsWarn5, h10, h21, step_normal, hw0, hw1, hw2, hw3,
    step_warn4, hupd0, Function.update_same, List.insertionSort, List.orderedInsert]

lemma scenario_reset :
    (detectAnomalies blDemo recsReset).head?.map
      (fun a => (a.date, a.consecutiveDays)) = some (17, 1) := by
  have h10 : ∀ (d : ℤ) (tr : MetricName → ℕ),
      checkRecordForAnomalies blDemo (mkStress d 10) tr =
      ((checkMetric .stress_score bDemo 10 d (tr .stress_score)).1.toList,
       Function.update tr .stress_score
         (checkMetric .stress_score bDemo 10 d (tr .stress_score)).2) :=
    fun d tr => checkRecord_mkStress d 10 (by norm_num) tr
  have h21 : ∀ (d : ℤ) (tr : MetricName → ℕ),
      checkRecordForAnomalies blDemo (mkStress d 21) tr =
      ((checkMetric .stress_score bDemo 21 d (tr .stress_score)).1.toList,
       Function.update tr .stress_score
         (checkMetric .stress_score bDemo 21 d (tr .stress_score)).2) :=
    fun d tr => checkRecord_mkStress d 21 (by norm_num) tr
  have hw0 := fun d => step_warn d 0 (by omega)
  simp [detectAnomalies, recsReset, h10, h21, step_normal, hw0, hupd0,
    Function.update_same, List.insertionSort, List.orderedInsert]

/-- C1: for every metric baseline with positive standard deviation,
`_check_metric` emits no alert when z < 1.5; otherwise the raw severity
is critical when z ≥ 2.5 (inclusive), warning when 2.0 ≤ z < 2.5 and
info when 1.5 ≤ z < 2.0, and an alert carrying the (escalated) raw
classification is emitted. -/
theorem C1_zscore_classification (m : MetricName) (b : BaselineQ) (v : ℚ) (d : ℤ)
    (c : ℕ) (hs : 0 < b.stdDev) :
    (|v - b.mean| / b.stdDev < 3/2 → (checkMetric m b v d c).1 = none) ∧
    (5/2 ≤ |v - b.mean| / b.stdDev →
      rawSeverity (|v - b.mean| / b.stdDev) = .critical) ∧
    (2 ≤ |v - b.mean| / b.stdDev → |v - b.mean| / b.stdDev < 5/2 →
      rawSeverity (|v - b.mean| / b.stdDev) = .warning) ∧
    (3/2 ≤ |v - b.mean| / b.stdDev → |v - b.mean| / b.stdDev < 2 →
      rawSeverity (|v - b.mean| / b.stdDev) = .info) ∧
    (3/2 ≤ |v - b.mean| / b.stdDev → ∃ a, (checkMetric m b v d c).1 = some a ∧
      a.severity = escalate (rawSeverity (|v - b.mean| / b.stdDev)) (c + 1)) := by
  have hne : b.stdDev ≠ 0 := ne_of_gt hs
  refine ⟨?_, ?_, ?_, ?_, ?_⟩
  · intro h
    simp [checkMetric, hne, h]
  · intro h
    simp only [rawSeverity]
    rw [if_pos h]
  · intro h h5
    simp only [rawSeverity]
    rw [if_neg (by linarith), if_pos h]
  · intro h h2
    simp only [rawSeverity]
    rw [if_neg (by linarith), if_neg (by linarith)]
  · intro h
    rw [checkMetric, if_neg hne, if_neg (not_lt.mpr h)]
    exact ⟨_, rfl, rfl⟩

/-- C1 witness: against `bUnit` (mean 10, std 1), the value 11 (z = 1)
raises nothing, and the value 13 (z = 3) classifies critical. -/
theorem C1_zscore_classification_witness :
    (checkMetric .stress_score bUnit 11 1 0).1 = none ∧
    rawSeverity (|(13 : ℚ) - bUnit.mean| / bUnit.stdDev) = .critical := by
  have habs1 : |(11 : ℚ) - bUnit.mean| / bUnit.stdDev = 1 := by
    show |(11 : ℚ) - 10| / 1 = 1
    rw [abs_of_nonneg (by norm_num : (0:ℚ) ≤ 11 - 10)]
    norm_num
  have habs3 : |(13 : ℚ) - bUnit.mean| / bUnit.stdDev = 3 := by
    show |(13 : ℚ) - 10| / 1 = 3
    rw [abs_of_nonneg (by norm_num : (0:ℚ) ≤ 13 - 10)]
    norm_num
  constructor
  · exact (C1_zscore_classification .stress_score bUnit 11 1 0 (by norm_num [bUnit])).1
      (by rw [habs1]; norm_num)
  · exact (C1_zscore_classification .stress_score bUnit 13 1 0
      (by norm_num [bUnit])).2.1 (by rw [habs3]; norm_num)

/-- C2: the consecutive-day escalation of `_check_metric` — a raw-info
day with run length ≥ 3 is emitted as warning, a raw-warning day with
run length ≥ 5 as critical, and a raw-critical day stays critical;
moreover in the synthetic scenarios, three consecutive days at z = 1.6
make the third day's alert a warning with run length 3, and five
consecutive days at warning-range z make the fifth day's alert critical
with run length 5. -/
theorem C2_consecutive_day_escalation :
    (∀ (m : MetricName) (b : BaselineQ) (v : ℚ) (d : ℤ) (c : ℕ), 0 < b.stdDev →
      ((3/2 ≤ |v - b.mean| / b.stdDev → |v - b.mean| / b.stdDev < 2 → 3 ≤ c + 1 →
         ∃ a, checkMetric m b v d c = (some a, c + 1) ∧ a.severity = .warning ∧
           a.consecutiveDays = c + 1) ∧
       (2 ≤ |v - b.mean| / b.stdDev → |v - b.mean| / b.stdDev < 5/2 → 5 ≤ c + 1 →
         ∃ a, checkMetric m b v d c = (some a, c + 1) ∧ a.severity = .critical ∧
           a.consecutiveDays = c + 1) ∧
       (5/2 ≤ |v - b.mean| / b.stdDev →
         ∃ a, checkMetric m b v d c = (some a, c + 1) ∧ a.severity = .critical))) ∧
    (detectAnomalies blDemo recsInfo3).head?.map
      (fun a => (a.date, a.severity, a.consecutiveDays)) = some (17, .warning, 3) ∧
    (detectAnomalies blDemo recsWarn5).head?.map
      (fun a => (a.date, a.severity, a.consecutiveDays)) = some (19, .critical, 5) := by
  refine ⟨?_, scenario_info3, scenario_warn5⟩
  intro m b v d c hs
  have hne : b.stdDev ≠ 0 := ne_of_gt hs
  refine ⟨?_, ?_, ?_⟩
  · intro h32 h2 h3
    rw [checkMetric, if_neg hne, if_neg (not_lt.mpr h32)]
    refine ⟨_, rfl, ?_, rfl⟩
    show escalate (rawSeverity (|v - b.mean| / b.stdDev)) (c + 1) = .warning
    rw [rawSeverity.eq_def]
    rw [if_neg (by linarith), if_neg (by linarith)]
    simp [escalate, h3]
  · intro h2 h52 h5
    rw [checkMetric, if_neg hne, if_neg (not_lt.mpr (by linarith))]
    refine ⟨_, rfl, ?_, rfl⟩
    show escalate (rawSeverity (|v - b.mean| / b.stdDev)) (c + 1) = .critical
    rw [rawSeverity.eq_def]
    rw [if_neg (by linarith), if_pos h2]
    simp [escalate, h5]
  · intro h52
    rw [checkMetric, if_neg hne, if_neg (not_lt.mpr (by linarith))]
    refine ⟨_, rfl, ?_⟩
    show escalate (rawSeverity (|v - b.mean| / b.stdDev)) (c + 1) = .critical
    rw [rawSeverity.eq_def]
    rw [if_pos h52]
    simp [escalate]

/-- C2 witness: against `bDemo` (mean 10, std 5) the value 18 (z = 1.6,
raw info) on the third consecutive day is emitted as a warning. -/
theorem C2_consecutive_day_escalation_witness :
    ∃ a, checkMetric .stress_score bDemo 18 15 2 = (some a, 3) ∧
      a.severity = .warning ∧ a.consecutiveDays = 3 := by
  obtain ⟨h, h1, h2, h3, hdev, hlow⟩ := step_info_facts
  refine (C2_consecutive_day_escalation.1 .stress_score bDemo 18 15 2
    (by norm_num [bDemo])).1 ?_ ?_ (by omega)
  · show (3/2 : ℚ) ≤ |(18 : ℚ) - 10| / 5
    rw [h]
    norm_num
  · show |(18 : ℚ) - 10| / 5 < 2
    rw [h]
    norm_num

/-- C7: a non-anomalous day (z < 1.5) resets the metric's run-length
counter to 0 and emits no alert, so the next anomalous day for the
metric reports `consecutive_days = 1`; the `recsReset` scenario shows
the reset through the full scan. -/
theorem C7_runlength_reset :
    (∀ (m : MetricName) (b : BaselineQ) (v : ℚ) (d : ℤ) (c : ℕ), 0 < b.stdDev →
      |v - b.mean| / b.stdDev < 3/2 → checkMetric m b v d c = (none, 0)) ∧
    (∀ (m : MetricName) (b : BaselineQ) (v : ℚ) (d : ℤ), 0 < b.stdDev →
      3/2 ≤ |v - b.mean| / b.stdDev →
      ∃ a, checkMetric m b v d 0 = (some a, 1) ∧ a.consecutiveDays = 1) ∧
    (detectAnomalies blDemo recsReset).head?.map
      (fun a => (a.date, a.consecutiveDays)) = some (17, 1) := by
  refine ⟨?_, ?_, scenario_reset⟩
  · intro m b v d c hs h
    rw [checkMetric, if_neg (ne_of_gt hs), if_pos h]
  · intro m b v d hs h
    rw [checkMetric, if_neg (ne_of_gt hs), if_neg (not_lt.mpr h)]
    exact ⟨_, rfl, rfl⟩

/-- C7 witness: value 10 at `bDemo` (z = 0) resets the counter from 4
to 0 with no alert; then value 21 (z = 2.2) starting from counter 0
reports run length 1. -/
theorem C7_runlength_reset_witness :
    checkMetric .stress_score bDemo 10 16 4 = (none, 0) ∧
    ∃ a, checkMetric .stress_score bDemo 21 17 0 = (some a, 1) ∧
      a.consecutiveDays = 1 := by
  obtain ⟨h, h1, h2, h3, hdev, hlow⟩ := step_warn_facts
  constructor
  · exact C7_runlength_reset.1 .stress_score bDemo 10 16 4 (by norm_num [bDemo])
      (by show |(10 : ℚ) - 10| / 5 < 3/2; norm_num)
  · exact C7_runlength_reset.2.1 .stress_score bDemo 21 17 (by norm_num [bDemo])
      (by show (3/2 : ℚ) ≤ |(21 : ℚ) - 10| / 5; rw [h]; norm_num)

/-! Structural lemmas about the scan: every emitted alert comes from a
scanned metric whose baseline exists and has nonzero standard
deviation. -/

lemma checkMetric_fst {m : MetricName} {b : BaselineQ} {v : ℚ} {d : ℤ} {c : ℕ}
    {a : AlertQ} (h : (checkMetric m b v d c).1 = some a) :
    b.stdDev ≠ 0 ∧ a.metricName = m ∧ a.metricType = metricType m := by
  unfold checkMetric at h
  split_ifs at h with h1 h2
  simp only [Option.some.injEq] at h
  subst h
  exact ⟨h1, rfl, rfl⟩

lemma tryMetric_mem {bl : MetricName → Option BaselineQ} {r : Record}
    {m : MetricName} {st : List AlertQ × (MetricName → ℕ)} {a : AlertQ}
    (h : a ∈ (tryMetric bl r m st).1) :
    a ∈ st.1 ∨ ∃ b, bl m = some b ∧ b.stdDev ≠ 0 ∧ a.metricName = m ∧
      a.metricType = metricType m := by
  unfold tryMetric at h
  cases hg : truthyGet r m with
  | none =>
    rw [hg] at h
    exact Or.inl h
  | some v =>
    cases hb : bl m with
    | none =>
      rw [hg, hb] at h
      exact Or.inl h
    | some b =>
      rw [hg, hb] at h
      simp only [List.mem_append] at h
      rcases h with h | h
      · exact Or.inl h
      · cases hcm : (checkMetric m b v r.date (st.2 m)).1 with
        | none =>
          rw [hcm] at h
          simp at h
        | some a2 =>
          rw [hcm] at h
          simp only [Option.toList_some, List.mem_singleton] at h
          subst h
          obtain ⟨h1, h2, h3⟩ := checkMetric_fst hcm
          exact Or.inr ⟨b, rfl, h1, h2, h3⟩

lemma scanFoldl_mem {bl : MetricName → Option BaselineQ} {r : Record} :
    ∀ (l : List MetricName) (st : List AlertQ × (MetricName → ℕ)) (a : AlertQ),
      a ∈ (l.foldl (fun st m => tryMetric bl r m st) st).1 →
      a ∈ st.1 ∨ ∃ m ∈ l, ∃ b, bl m = some b ∧ b.stdDev ≠ 0 ∧
        a.metricName = m ∧ a.metricType = metricType m := by
  intro l
  induction l with
  | nil => intro st a h; exact Or.inl h
  | cons x xs ih =>
    intro st a h
    rw [List.foldl_cons] at h
    rcases ih _ a h with h1 | ⟨m, hm, b, hb⟩
    · rcases tryMetric_mem h1 with h2 | ⟨b, hb⟩
      · exact Or.inl h2
      · exact Or.inr ⟨x, List.mem_cons_self x xs, b, hb⟩
    · exact Or.inr ⟨m, List.mem_cons_of_mem x hm, b, hb⟩

lemma checkRecord_mem {bl : MetricName → Option BaselineQ} {r : Record}
    {tr : MetricName → ℕ} {a : AlertQ}
    (h : a ∈ (checkRecordForAnomalies bl r tr).1) :
    ∃ m ∈ scanOrder, ∃ b, bl m = some b ∧ b.stdDev ≠ 0 ∧
      a.metricName = m ∧ a.metricType = metricType m := by
  rcases scanFoldl_mem scanOrder ([], tr) a h with h1 | h2
  · simp at h1
  · exact h2

lemma detectFoldl_mem {bl : MetricName → Option BaselineQ} :
    ∀ (rs : List Record) (st : List AlertQ × (MetricName → ℕ)) (a : AlertQ),
      a ∈ (rs.foldl
        (fun (st : List AlertQ × (MetricName → ℕ)) r =>
          let res := checkRecordForAnomalies bl r st.2
          (st.1 ++ res.1, res.2)) st).1 →
      a ∈ st.1 ∨ ∃ m ∈ scanOrder, ∃ b, bl m = some b ∧ b.stdDev ≠ 0 ∧
        a.metricName = m ∧ a.metricType = metricType m := by
  intro rs
  induction rs with
  | nil => intro st a h; exact Or.inl h
  | cons x xs ih =>
    intro st a h
    rw [List.foldl_cons] at h
    rcases ih _ a h with h1 | h2
    · simp only [List.mem_append] at h1
      rcases h1 with h1 | h1
      · exact Or.inl h1
      · exact Or.inr (checkRecord_mem h1)
    · exact Or.inr h2

lemma detect_mem {bl : MetricName → Option BaselineQ} {records : List Record}
    {a : AlertQ} (h : a ∈ detectAnomalies bl records) :
    ∃ m ∈ scanOrder, ∃ b, bl m = some b ∧ b.stdDev ≠ 0 ∧
      a.metricName = m ∧ a.metricType = metricType m := by
  unfold detectAnomalies at h
  split_ifs at h with h14
  · simp at h
  · rw [List.mem_insertionSort] at h
    rcases detectFoldl_mem _ _ a h with h1 | h2
    · simp at h1
    · exact h2

/-- The baseline-existence characterisation of `_calculate_baselines`. -/
lemma calcBaselines_isSome (records : List Record) (m : MetricName) :
    (calculateBaselines records m).isSome ↔
      14 ≤ records.length ∧ 7 ≤ (metricValues records m).length := by
  simp only [calculateBaselines]
  split_ifs with h1 h2
  · simp only [Option.isSome_none, Bool.false_eq_true, false_iff]
    omega
  · simp only [Option.isSome_some, true_iff]
    omega
  · simp only [Option.isSome_none, Bool.false_eq_true, false_iff]
    omega

/-- C10: no alert of metric type ENERGY is ever emitted (the scan never
examines `energy_level`), although `energy_level` does receive a
baseline exactly when its data suffices. -/
theorem C10_no_energy_alerts :
    (∀ (bl : MetricName → Option BaselineQ) (records : List Record),
      (detectAnomalies bl records).filter (fun a => a.metricType = .energy) = []) ∧
    (∀ records : List Record,
      (calculateBaselines records .energy_level).isSome ↔
        14 ≤ records.length ∧
          7 ≤ (metricValues records .energy_level).length) := by
  refine ⟨?_, fun records => calcBaselines_isSome records .energy_level⟩
  intro bl records
  rw [List.filter_eq_nil_iff]
  intro a ha
  obtain ⟨m, hm, b, hb, hstd, hname, htype⟩ := detect_mem ha
  simp only [decide_eq_true_eq]
  rw [htype]
  simp only [scanOrder, List.mem_cons, List.mem_singleton] at hm
  rcases hm with rfl | rfl | rfl | rfl | rfl | h
  · simp [metricType]
  · simp [metricType]
  · simp [metricType]
  · simp [metricType]
  · simp [metricType]
  · simp at h

/-- C4 counterexample: `recsC4` has 14 records and its stress score has
7 (indeed 9) non-null values in the 9-record baseline window, one of
which is the stored value `0`; the claim then promises a baseline, but
the truthiness test drops the zeros, leaves 6 samples, and
`_calculate_baselines` yields none. -/
theorem C4_counterexample :
    14 ≤ recsC4.length ∧ 7 ≤ nonNullCountSpec recsC4 .stress_score ∧
    calculateBaselines recsC4 .stress_score = none := by
  refine ⟨by decide, by decide, ?_⟩
  have h1 : ¬(recsC4.length < 14) := by decide
  have h2 : ¬(7 ≤ (metricValues recsC4 .stress_score).length) := by
    have : metricValues recsC4 .stress_score = [11, 12, 13, 14, 15, 16] := by
      simp [metricValues, recsC4, baselinePeriod, truthyGet, dropZero, mkStress,
        Record.get]
    rw [this]
    simp
  simp only [calculateBaselines, h1, if_false, h2]

/-- C4 (amended): a metric has a baseline after a rebuild iff the record
set has at least 14 records and the metric has at least 7 non-null,
non-zero values in the baseline window (the truthiness test treats a
stored 0 as missing); metrics without a baseline are skipped by the
anomaly scan. -/
theorem C4_baseline_existence_invariant :
    (∀ (records : List Record) (m : MetricName),
      (calculateBaselines records m).isSome ↔
        14 ≤ records.length ∧ 7 ≤ (metricValues records m).length) ∧
    (∀ (bl : MetricName → Option BaselineQ) (records : List Record)
      (m : MetricName), bl m = none →
      (detectAnomalies bl records).filter (fun a => a.metricName = m) = []) := by
  refine ⟨calcBaselines_isSome, ?_⟩
  intro bl records m hm
  rw [List.filter_eq_nil_iff]
  intro a ha
  obtain ⟨m2, hm2, b, hb, hstd, hname, htype⟩ := detect_mem ha
  simp only [decide_eq_true_eq]
  intro heq
  rw [heq] at hname
  rw [hname] at hm
  rw [hm] at hb
  exact Option.noConfusion hb

/-- C4 witness: a baselines map without an `hrv` entry yields no `hrv`
alert on the info-scenario records. -/
theorem C4_baseline_existence_invariant_witness :
    (detectAnomalies blDemo recsInfo3).filter
      (fun a => a.metricName = .hrv) = [] :=
  C4_baseline_existence_invariant.2 blDemo recsInfo3 .hrv rfl

/-! Lemmas for the zero-as-absent policy. -/

lemma dropZero_idem (o : Option ℚ) : dropZero (dropZero o) = dropZero o := by
  cases o with
  | none => rfl
  | some v => by_cases h : v = 0 <;> simp [dropZero, h]

lemma dropZero_ne_some_zero (o : Option ℚ) : dropZero o ≠ some 0 := by
  cases o with
  | none => simp [dropZero]
  | some v => by_cases h : v = 0 <;> simp [dropZero, h]

lemma get_zeroToNone (r : Record) (m : MetricName) :
    (zeroToNone r).get m = dropZero (r.get m) := by
  cases m <;> rfl

lemma truthyGet_zeroToNone (r : Record) (m : MetricName) :
    truthyGet (zeroToNone r) m = truthyGet r m := by
  simp only [truthyGet, get_zeroToNone, dropZero_idem]

lemma tryMetric_zeroToNone (bl : MetricName → Option BaselineQ) (r : Record)
    (m : MetricName) (st : List AlertQ × (MetricName → ℕ)) :
    tryMetric bl (zeroToNone r) m st = tryMetric bl r m st := by
  unfold tryMetric
  rw [truthyGet_zeroToNone]
  rfl

lemma checkRecord_zeroToNone (bl : MetricName → Option BaselineQ) (r : Record)
    (tr : MetricName → ℕ) :
    checkRecordForAnomalies bl (zeroToNone r) tr =
      checkRecordForAnomalies bl r tr := by
  unfold checkRecordForAnomalies
  have h : (fun (st : List AlertQ × (MetricName → ℕ)) m =>
      tryMetric bl (zeroToNone r) m st) = fun st m => tryMetric bl r m st :=
    funext fun st => funext fun m => tryMetric_zeroToNone bl r m st
  rw [h]

lemma detect_zeroToNone (bl : MetricName → Option BaselineQ)
    (records : List Record) :
    detectAnomalies bl (records.map zeroToNone) = detectAnomalies bl records := by
  simp only [detectAnomalies, List.length_map]
  split_ifs with h
  · rfl
  · rw [← List.map_drop, List.foldl_map]
    congr 2
    apply List.foldl_ext
    intro st y hy
    simp only [checkRecord_zeroToNone]

lemma metricValues_zeroToNone (records : List Record) (m : MetricName) :
    metricValues (records.map zeroToNone) m = metricValues records m := by
  unfold metricValues
  rw [List.length_map, ← List.map_take, List.filterMap_map]
  congr 1
  funext r
  simp only [Function.comp_apply, truthyGet_zeroToNone]

lemma calcBaselines_zeroToNone (records : List Record) (m : MetricName) :
    calculateBaselines (records.map zeroToNone) m =
      calculateBaselines records m := by
  simp only [calculateBaselines, List.length_map, metricValues_zeroToNone]

/-- C8: the detector treats a stored 0 (Python-falsy) value as absent:
no 0 is ever collected as a baseline sample, and both the baseline pass
and the anomaly scan behave identically when every stored 0 is replaced
by a missing value. -/
theorem C8_zero_treated_as_absent (records : List Record) :
    (∀ m : MetricName, (metricValues records m).count 0 = 0) ∧
    (∀ m : MetricName,
      calculateBaselines (records.map zeroToNone) m =
        calculateBaselines records m) ∧
    (∀ bl : MetricName → Option BaselineQ,
      detectAnomalies bl (records.map zeroToNone) = detectAnomalies bl records) := by
  refine ⟨?_, fun m => calcBaselines_zeroToNone records m,
    fun bl => detect_zeroToNone bl records⟩
  intro m
  rw [List.count_eq_zero]
  intro hmem
  rw [metricValues, List.mem_filterMap] at hmem
  obtain ⟨r, hr1, hr⟩ := hmem
  rw [truthyGet] at hr
  exact dropZero_ne_some_zero (r.get m) hr

/-! Lemmas about the correlation scan. -/

lemma dictLookup_nil (d : ℤ) : dictLookup [] d = none := rfl

lemma alignSeries_nil_left (sb : List (ℤ × ℚ)) (offset : ℤ) :
    alignSeries [] sb offset = [] := rfl

lemma alignSeries_nil_right (sa : List (ℤ × ℚ)) (offset : ℤ) :
    alignSeries sa [] offset = [] := by
  unfold alignSeries
  induction sa with
  | nil => rfl
  | cons x xs ih => rw [List.filterMap_cons]; simp [dictLookup, ih]

lemma entryAligned_length (records : List Record)
    (e : MetricName × MetricName × ℤ) :
    (entryAligned records e).length ≤ records.length :=
  le_trans (List.length_filterMap_le _ _) (List.length_filterMap_le _ _)

lemma stdevR_zero {xs : List ℚ} (h : sampleVarQ xs = 0) : stdevR xs = 0 := by
  unfold stdevR
  split_ifs
  · rw [h]
    simp
  · rfl

open Classical in
lemma corrStep_eq (records : List Record) (acc : List Insight)
    (e : MetricName × MetricName × ℤ) :
    corrStep records acc e = acc ++
      (if 14 ≤ (entryAligned records e).length ∧
          3/10 ≤ |(entryPearson records e).1|
       then [entryInsight records e] else []) := by
  unfold corrStep
  by_cases h1 : extractMetricSeries records e.1 = [] ∨
      extractMetricSeries records e.2.1 = []
  · rw [if_pos h1]
    have hal : entryAligned records e = [] := by
      unfold entryAligned
      rcases h1 with h | h <;> rw [h]
      · exact alignSeries_nil_left _ _
      · exact alignSeries_nil_right _ _
    rw [hal]
    norm_num
  · rw [if_neg h1]
    by_cases h2 : (entryAligned records e).length < 14
    · rw [if_pos h2, if_neg (by omega :
        ¬(14 ≤ (entryAligned records e).length ∧
          3/10 ≤ |(entryPearson records e).1|))]
      rw [List.append_nil]
    · rw [if_neg h2]
      by_cases h3 : 3/10 ≤ |(entryPearson records e).1|
      · rw [if_pos h3, if_pos ⟨by omega, h3⟩]
      · rw [if_neg h3, if_neg (by tauto :
          ¬(14 ≤ (entryAligned records e).length ∧
            3/10 ≤ |(entryPearson records e).1|))]
        rw [List.append_nil]

open Classical in
lemma corrFoldl_eq (records : List Record) :
    ∀ (l : List (MetricName × MetricName × ℤ)) (acc : List Insight),
      l.foldl (corrStep records) acc = acc ++ l.filterMap (fun e =>
        if 14 ≤ (entryAligned records e).length ∧
            3/10 ≤ |(entryPearson records e).1|
        then some (entryInsight records e) else none) := by
  intro l
  induction l with
  | nil => intro acc; simp
  | cons x xs ih =>
    intro acc
    rw [List.foldl_cons, corrStep_eq, ih, List.filterMap_cons]
    by_cases hc : 14 ≤ (entryAligned records x).length ∧
        3/10 ≤ |(entryPearson records x).1|
    · rw [if_pos hc, if_pos hc, List.append_assoc]
      rfl
    · rw [if_neg hc, if_neg hc, List.append_nil]

open Classical in
/-- C6: the correlation result set contains exactly the catalogue
entries whose aligned sample has at least 14 points and whose computed
coefficient has absolute value at least 0.3 (up to the final
reordering), and it is sorted by absolute stored coefficient,
descending. -/
theorem C6_membership_and_order (records : List Record) :
    ((calculateCorrelations records).Pairwise
      (fun i j => |j.coefficient| ≤ |i.coefficient|)) ∧
    ((calculateCorrelations records).Perm
      (correlationPairs.filterMap (fun e =>
        if 14 ≤ (entryAligned records e).length ∧
            3/10 ≤ |(entryPearson records e).1|
        then some (entryInsight records e) else none))) := by
  constructor
  · haveI : IsTotal Insight (fun i j => |j.coefficient| ≤ |i.coefficient|) :=
      ⟨fun a b => le_total _ _⟩
    haveI : IsTrans Insight (fun i j => |j.coefficient| ≤ |i.coefficient|) :=
      ⟨fun a b c h1 h2 => le_trans h2 h1⟩
    exact List.sorted_insertionSort _ _
  · unfold calculateCorrelations
    refine (List.perm_insertionSort _ _).trans ?_
    rw [corrFoldl_eq]
    rw [List.nil_append]

/-- C9: with an empty or sub-14-record data set, a rebuild produces no
baselines, no alerts and no correlations (and, being total functions,
the embedded rebuild operations raise nothing). -/
theorem C9_fail_open (records : List Record) (h : records.length < 14) :
    (∀ m : MetricName, calculateBaselines records m = none) ∧
    (∀ bl : MetricName → Option BaselineQ, detectAnomalies bl records = []) ∧
    calculateCorrelations records = [] := by
  refine ⟨?_, ?_, ?_⟩
  · intro m
    simp [calculateBaselines, h]
  · intro bl
    simp [detectAnomalies, h]
  · unfold calculateCorrelations
    rw [corrFoldl_eq]
    have hnil : correlationPairs.filterMap (fun e =>
        if 14 ≤ (entryAligned records e).length ∧
            3/10 ≤ |(entryPearson records e).1|
        then some (entryInsight records e) else none) = [] := by
      rw [List.filterMap_eq_nil_iff]
      intro e he
      rw [if_neg]
      rintro ⟨h14, -⟩
      have hlen := entryAligned_length records e
      omega
    rw [hnil]
    rfl

/-- C9 witness: the empty record set yields no baselines, alerts or
correlations. -/
theorem C9_fail_open_witness :
    calculateBaselines [] .steps = none ∧ detectAnomalies blDemo [] = [] ∧
      calculateCorrelations [] = [] := by
  obtain ⟨h1, h2, h3⟩ := C9_fail_open [] (by decide)
  exact ⟨h1 .steps, h2 blDemo, h3⟩

/-- C5: the two degenerate-variance guards — a metric whose baseline
standard deviation is 0 never produces an alert, and a correlation pair
with a zero-variance side gets correlation and confidence 0 instead of
a division by zero. -/
theorem C5_degenerate_variance_guard :
    (∀ (bl : MetricName → Option BaselineQ) (records : List Record)
      (m : MetricName) (b : BaselineQ), bl m = some b → b.stdDev = 0 →
      (detectAnomalies bl records).filter (fun a => a.metricName = m) = []) ∧
    (∀ xs ys : List ℚ, sampleVarQ xs = 0 ∨ sampleVarQ ys = 0 →
      calculatePearson xs ys = (0, 0)) := by
  constructor
  · intro bl records m b hb hstd
    rw [List.filter_eq_nil_iff]
    intro a ha
    obtain ⟨m2, hm2, b2, hb2, hstd2, hname, -⟩ := detect_mem ha
    simp only [decide_eq_true_eq]
    intro heq
    rw [heq] at hname
    rw [hname] at hb
    rw [hb] at hb2
    obtain rfl : b = b2 := Option.some.inj hb2
    exact hstd2 hstd
  · intro xs ys hvar
    unfold calculatePearson
    by_cases h10 : xs.length < 10
    · rw [if_pos h10]
    · rw [if_neg h10, if_pos]
      rcases hvar with h | h
      · exact Or.inl (stdevR_zero h)
      · exact Or.inr (stdevR_zero h)

/-- C5 witness: a stress baseline with zero standard deviation yields no
stress alert on the info-scenario records, and the constant series
`[1, 1]` (variance 0) gives correlation and confidence 0. -/
theorem C5_degenerate_variance_guard_witness :
    (detectAnomalies (fun _ => some ⟨.stress, 10, 0, 10, 10, 7⟩) recsInfo3).filter
      (fun a => a.metricName = .stress_score) = [] ∧
    calculatePearson [1, 1] [2, 3] = (0, 0) := by
  constructor
  · exact C5_degenerate_variance_guard.1 (fun _ => some ⟨.stress, 10, 0, 10, 10, 7⟩)
      recsInfo3 .stress_score ⟨.stress, 10, 0, 10, 10, 7⟩ rfl rfl
  · exact C5_degenerate_variance_guard.2 [1, 1] [2, 3]
      (Or.inl (by norm_num [sampleVarQ, sumDev2, meanQ]))

/-! Lemmas for the Pearson computation. -/

lemma sumDev2_nonneg (xs : List ℚ) : 0 ≤ sumDev2 xs := by
  apply List.sum_nonneg
  intro x hx
  rw [List.mem_map] at hx
  obtain ⟨y, -, rfl⟩ := hx
  positivity

lemma sumDev2_xs20 : sumDev2 xs20 = 665 := by
  norm_num [sumDev2, meanQ, xs20]

lemma sumDev2_ys20 : sumDev2 ys20 = 665 := by
  norm_num [sumDev2, meanQ, ys20, xs20]

lemma sumDevProd_xs20 : sumDevProd xs20 ys20 = -665 := by
  norm_num [sumDevProd, meanQ, xs20, ys20]

lemma stdevR_xs20 : stdevR xs20 = Real.sqrt 35 := by
  rw [stdevR, if_pos (by norm_num [xs20])]
  have h : sampleVarQ xs20 = 35 := by
    rw [sampleVarQ, sumDev2_xs20]
    norm_num [xs20]
  rw [h]
  norm_num

lemma stdevR_ys20 : stdevR ys20 = Real.sqrt 35 := by
  rw [stdevR, if_pos (by norm_num [ys20, xs20])]
  have h : sampleVarQ ys20 = 35 := by
    rw [sampleVarQ, sumDev2_ys20]
    norm_num [ys20, xs20]
  rw [h]
  norm_num

lemma pearson_xs20_eval : calculatePearson xs20 ys20 = (-(19/20 : ℝ), 1/3) := by
  unfold calculatePearson
  rw [if_neg (by norm_num [xs20] : ¬(xs20.length < 10))]
  have hs35 : Real.sqrt 35 ≠ 0 := ne_of_gt (Real.sqrt_pos.mpr (by norm_num))
  rw [if_neg (by
    push_neg
    rw [stdevR_xs20, stdevR_ys20]
    exact ⟨hs35, hs35⟩)]
  rw [stdevR_xs20, stdevR_ys20, Real.mul_self_sqrt (by norm_num : (0:ℝ) ≤ 35)]
  have hcov : covQ xs20 ys20 = -133/4 := by
    rw [covQ, sumDevProd_xs20]
    norm_num [xs20]
  rw [hcov]
  refine Prod.ext ?_ ?_
  · push_cast
    norm_num
  · show min 1 ((xs20.length : ℝ) / 60) = 1/3
    rw [show ((xs20.length : ℕ) : ℝ) = 20 by norm_num [xs20]]
    rw [min_eq_right (by norm_num)]
    norm_num

lemma pearsonSpec_xs20 : pearsonCoefficientSpec xs20 ys20 = -1 := by
  unfold pearsonCoefficientSpec
  rw [sumDevProd_xs20, sumDev2_xs20, sumDev2_ys20]
  rw [show ((665 : ℚ) : ℝ) = 665 by norm_num]
  rw [Real.mul_self_sqrt (by norm_num : (0:ℝ) ≤ 665)]
  push_cast
  norm_num

/-- C3 counterexample: over the 20 aligned points `x = 1..20`,
`y = 100 - x`, the code's coefficient is −0.95, not the promised ≈ −1.00,
and differs from the textbook Pearson coefficient (which is −1): the
covariance divides by n while the standard deviations divide by n − 1. -/
theorem C3_counterexample :
    (calculatePearson xs20 ys20).1 = -(19/20) ∧
    pearsonCoefficientSpec xs20 ys20 = -1 ∧
    (calculatePearson xs20 ys20).1 ≠ pearsonCoefficientSpec xs20 ys20 := by
  rw [pearson_xs20_eval, pearsonSpec_xs20]
  norm_num

open Classical in
/-- C3 (amended): for n ≥ 10 aligned points with both variances nonzero,
the computed coefficient is `((n−1)/n)` times the Pearson coefficient
(and the confidence is `min(1, n/60)`); on the 20-point anti-correlated
example the insight therefore stores coefficient −0.95 and confidence
0.33 and is classified strong negative. -/
theorem C3_correlation_formula :
    (∀ xs ys : List ℚ, ys.length = xs.length → 10 ≤ xs.length →
      sumDev2 xs ≠ 0 → sumDev2 ys ≠ 0 →
      (calculatePearson xs ys).1 =
        ((xs.length : ℝ) - 1) / (xs.length : ℝ) * pearsonCoefficientSpec xs ys ∧
      (calculatePearson xs ys).2 = min 1 ((xs.length : ℝ) / 60)) ∧
    ((createInsight .sleep_duration .energy_level (calculatePearson xs20 ys20).1
        (calculatePearson xs20 ys20).2 20 0).coefficient = -(19/20) ∧
     (createInsight .sleep_duration .energy_level (calculatePearson xs20 ys20).1
        (calculatePearson xs20 ys20).2 20 0).confidence = 33/100 ∧
     (createInsight .sleep_duration .energy_level (calculatePearson xs20 ys20).1
        (calculatePearson xs20 ys20).2 20 0).strength = .strong ∧
     (createInsight .sleep_duration .energy_level (calculatePearson xs20 ys20).1
        (calculatePearson xs20 ys20).2 20 0).direction = .negative) := by
  constructor
  · intro xs ys hlen h10 hx hy
    have hn10 : (10:ℝ) ≤ (xs.length : ℝ) := by exact_mod_cast h10
    have hA : (0:ℝ) < (sumDev2 xs : ℝ) :=
      lt_of_le_of_ne (by exact_mod_cast sumDev2_nonneg xs)
        (Ne.symm (by exact_mod_cast hx))
    have hB : (0:ℝ) < (sumDev2 ys : ℝ) :=
      lt_of_le_of_ne (by exact_mod_cast sumDev2_nonneg ys)
        (Ne.symm (by exact_mod_cast hy))
    have hsx : stdevR xs =
        Real.sqrt ((sumDev2 xs : ℝ) / ((xs.length : ℝ) - 1)) := by
      rw [stdevR, if_pos (by omega)]
      congr 1
      rw [sampleVarQ]
      push_cast
      ring
    have hsy : stdevR ys =
        Real.sqrt ((sumDev2 ys : ℝ) / ((xs.length : ℝ) - 1)) := by
      rw [stdevR, if_pos (by omega)]
      congr 1
      rw [sampleVarQ, hlen]
      push_cast
      ring
    have hposx : (0:ℝ) < (sumDev2 xs : ℝ) / ((xs.length : ℝ) - 1) :=
      div_pos hA (by linarith)
    have hposy : (0:ℝ) < (sumDev2 ys : ℝ) / ((xs.length : ℝ) - 1) :=
      div_pos hB (by linarith)
    unfold calculatePearson
    rw [if_neg (by omega)]
    rw [if_neg (by
      push_neg
      rw [hsx, hsy]
      exact ⟨ne_of_gt (Real.sqrt_pos.mpr hposx),
        ne_of_gt (Real.sqrt_pos.mpr hposy)⟩)]
    refine ⟨?_, rfl⟩
    show ((covQ xs ys : ℚ) : ℝ) / (stdevR xs * stdevR ys) = _
    rw [hsx, hsy, Real.sqrt_div (le_of_lt hA) _, Real.sqrt_div (le_of_lt hB) _,
      div_mul_div_comm, Real.mul_self_sqrt (by linarith), covQ,
      pearsonCoefficientSpec]
    have hsa : Real.sqrt (sumDev2 xs : ℝ) ≠ 0 := ne_of_gt (Real.sqrt_pos.mpr hA)
    have hsb : Real.sqrt (sumDev2 ys : ℝ) ≠ 0 := ne_of_gt (Real.sqrt_pos.mpr hB)
    have hne : (xs.length : ℝ) ≠ 0 := by linarith
    have hne1 : (xs.length : ℝ) - 1 ≠ 0 := by linarith
    push_cast
    field_simp
    ring
  · rw [pearson_xs20_eval]
    refine ⟨?_, ?_, ?_, ?_⟩
    · show round3ofReal (-(19/20)) = -(19/20)
      rw [round3ofReal, round_eq]
      norm_num
    · show round2ofRealR (1/3) = 33/100
      rw [round2ofRealR, round_eq]
      norm_num
    · show (if (6/10 : ℝ) ≤ |(-(19/20) : ℝ)| then Strength.strong
        else Strength.moderate) = Strength.strong
      rw [if_pos]
      rw [abs_neg, abs_of_nonneg (by norm_num : (0:ℝ) ≤ 19/20)]
      norm_num
    · show (if (0 : ℝ) < -(19/20) then Direction.positive
        else Direction.negative) = Direction.negative
      rw [if_neg (by norm_num)]

/-- C3 witness: the scaled-Pearson formula applied to the 20-point
anti-correlated series. -/
theorem C3_correlation_formula_witness :
    (calculatePearson xs20 ys20).1 =
      ((xs20.length : ℝ) - 1) / (xs20.length : ℝ) *
        pearsonCoefficientSpec xs20 ys20 :=
  (C3_correlation_formula.1 xs20 ys20 rfl (by decide)
    (by rw [sumDev2_xs20]; norm_num) (by rw [sumDev2_ys20]; norm_num)).1

end HealthAgg
